import Mathlib

/-
Verification development for the solanabot repository.

Shallow embedding conventions:
- SOL amounts are exact rationals (the source computes on JS numbers and then
  fixes results to 8 decimal places where it matters; toFixed8 below models
  Number.prototype.toFixed(8) as round-to-nearest with ties rounded up, the
  idealized ECMAScript rule).
- Stateful classes (FundManager, AutoTradingService, SessionPersistence) are
  modelled as pure step functions over explicit state records; Date.now() and
  Math.random() become explicit parameters.
- Thrown JS errors become Except values.
-/

namespace SolanaBot

/-- Number.prototype.toFixed(8), idealized over exact rationals: round the
value to 8 decimal places, to the nearest grid point, ties upward. -/
def toFixed8 (x : ℚ) : ℚ := ((⌊x * 100000000 + 1 / 2⌋ : ℤ) : ℚ) / 100000000

/- ------------------------------------------------------------------ -/
/- FundManager (src/fundManager.ts)                                   -/
/- ------------------------------------------------------------------ -/

def REVENUE_WALLET : String := "8oj8bJ43BPE7818Pj3CAUnAe5gqGHHMKTCiMF4aCEtW6"

def REVENUE_PERCENTAGE : ℚ := 0.25

def TRADING_PERCENTAGE : ℚ := 0.75

def MINIMUM_DEPOSIT_SOL : ℚ := 0.1

def PRIVILEGED_WALLETS : List String :=
  [ "2EJEuS1UaXaratBSiJJxd2p93XdvTL6uSHGXj2ZCx6Qt"
  , "DAt9mmiYvh1uS5EtFMtb5uuPVWL1sPNfZtLULcthDVkC"
  , "9hWRQJaTDeQKPu4kqDcBFFtBv4uTH75G29iTeGuo4zwi" ]

/-- The hard-coded funding-source address that makes processFundSplit skip the
minimum-deposit validation (fundManager.ts line 199). -/
def PRIVILEGED_FUNDING_SOURCE : String := "2EJEuS1UaXaratBSiJJxd2p93XdvTL6uSHGXj2ZCx6Qt"

structure DepositValidation where
  isValid : Bool
  message : String
  minimumRequired : ℚ
deriving Repr, DecidableEq

/-- FundManager.validateMinimumDeposit (fundManager.ts lines 137-177). -/
def validateMinimumDeposit (userWalletAddress : String) (amount : ℚ) : DepositValidation :=
  if userWalletAddress ∈ PRIVILEGED_WALLETS then
    { isValid := true
      message := "Deposit meets minimum requirement"
      minimumRequired := MINIMUM_DEPOSIT_SOL }
  else if amount < MINIMUM_DEPOSIT_SOL then
    { isValid := false
      message := "Minimum deposit is 0.1 SOL. Please deposit at least 0.1 SOL to use the volume bot."
      minimumRequired := MINIMUM_DEPOSIT_SOL }
  else
    { isValid := true
      message := "Deposit meets minimum requirement"
      minimumRequired := MINIMUM_DEPOSIT_SOL }

structure FundSplit where
  userTradingAmount : ℚ
  revenueAmount : ℚ
  totalAmount : ℚ
  revenueWallet : String
  timestamp : ℕ
deriving Repr, DecidableEq

structure FundTransfer where
  fromWallet : String
  toWallet : String
  amount : ℚ
  purpose : String
deriving Repr, DecidableEq

/-- The dedupe key built at fundManager.ts line 212: the template string
combining the session id, the amount and the current Date.now() value,
modelled as the triple of its three parts (string concatenation with the
underscore separators is injective in those parts for the keys built here). -/
abbrev SplitKey := String × ℚ × ℕ

def splitKeyFor (sessionId : String) (totalAmount : ℚ) (now : ℕ) : SplitKey :=
  (sessionId, totalAmount, now)

/-- The mutable fields of the FundManager singleton that fund splitting touches. -/
structure FMState where
  processedTransactions : List String
  fundSplits : List (SplitKey × FundSplit)
  revenueTransfers : List FundTransfer
deriving Repr, DecidableEq

def initialFMState : FMState :=
  { processedTransactions := [], fundSplits := [], revenueTransfers := [] }

inductive FundError where
  | minimumNotMet (message : String)
  | duplicateFundSplit
  | transactionAlreadyProcessed
  | invalidRevenueAmount
deriving Repr, DecidableEq

/-- The revenue amount computed at fundManager.ts line 227. The source
multiplies binary64 doubles; for a binary64 totalAmount the 25 percent
product is always exact (a scale by 2^-2), so using the exact rational
product here is bit-faithful to the runtime. -/
def calcRevenueAmount (totalAmount : ℚ) : ℚ := toFixed8 (totalAmount * REVENUE_PERCENTAGE)

/-- The user trading amount computed at fundManager.ts line 228. The 75
percent binary64 product is exact whenever three times the significand of
totalAmount still fits in 53 bits (in particular whenever the significand is
divisible by 4); at other inputs the runtime product carries one binary64
rounding of relative size at most 2^-53 that this exact rational product
omits. The rounding-drift analysis below therefore quantifies over the
product values where that slack matters, and concrete evaluations use
amounts whose products are exactly representable. -/
def calcUserTradingAmount (totalAmount : ℚ) : ℚ := toFixed8 (totalAmount * TRADING_PERCENTAGE)

/-- Fixture: the exact value of the binary64 number 0.10000018039999997…,
with significand 7205772402982756 and exponent -56. The significand is
divisible by 4 and below 2^53, so this amount, amount * 0.25
(= 7205772402982756 / 2^58) and amount * 0.75 (= 5404329302237067 / 2^56)
are all exactly representable binary64 values: at this input the runtime's
double products incur no rounding at all and equal the exact rational
products used by calcRevenueAmount and calcUserTradingAmount. -/
def tieFreeAmount : ℚ := 7205772402982756 / 72057594037927936

/-- FundManager.executeRevenueTransfer (fundManager.ts lines 266-327),
reduced to its bookkeeping: reject non-positive amounts, otherwise append an
audit record (the on-chain submission itself is an external effect). -/
def executeRevenueTransfer (st : FMState) (fromWallet : String) (revenueAmount : ℚ) :
    Except FundError FMState :=
  if revenueAmount ≤ 0 then .error .invalidRevenueAmount
  else .ok { st with revenueTransfers := st.revenueTransfers ++
    [{ fromWallet := fromWallet, toWallet := REVENUE_WALLET,
       amount := revenueAmount, purpose := "REVENUE_COLLECTION" }] }

/-- FundManager.processFundSplit (fundManager.ts lines 190-261).
On error nothing is recorded (the returned Except carries no new state). -/
def processFundSplit (st : FMState) (sessionId : String) (userWalletAddress : String)
    (totalAmount : ℚ) (transactionId : Option String) (fundingSource : Option String)
    (now : ℕ) : Except FundError (FundSplit × FMState) :=
  let depositCheck : Except FundError Unit :=
    if fundingSource = some PRIVILEGED_FUNDING_SOURCE then .ok ()
    else
      let v := validateMinimumDeposit userWalletAddress totalAmount
      if v.isValid then .ok () else .error (.minimumNotMet v.message)
  match depositCheck with
  | .error e => .error e
  | .ok _ =>
    let splitKey := splitKeyFor sessionId totalAmount now
    if splitKey ∈ st.fundSplits.map Prod.fst then
      .error .duplicateFundSplit
    else if (match transactionId with
             | some t => decide (t ∈ st.processedTransactions)
             | none => false) then
      .error .transactionAlreadyProcessed
    else
      let revenueAmount := calcRevenueAmount totalAmount
      let userTradingAmount := calcUserTradingAmount totalAmount
      match executeRevenueTransfer st userWalletAddress revenueAmount with
      | .error e => .error e
      | .ok st1 =>
        let fundSplit : FundSplit :=
          { userTradingAmount := userTradingAmount
            revenueAmount := revenueAmount
            totalAmount := totalAmount
            revenueWallet := REVENUE_WALLET
            timestamp := now }
        .ok (fundSplit,
          { st1 with
            fundSplits := st1.fundSplits ++ [(splitKey, fundSplit)]
            processedTransactions :=
              match transactionId with
              | some t => st1.processedTransactions ++ [t]
              | none => st1.processedTransactions })

/- ------------------------------------------------------------------ -/
/- AutoTradingService (src/autoTradingService.ts)                     -/
/- ------------------------------------------------------------------ -/

inductive TradeSide where
  | buy
  | sell
deriving Repr, DecidableEq

/-- The side computed at autoTradingService.ts line 932:
BUY when the completed-trade counter is even, SELL when it is odd. -/
def tradeSideFor (totalTrades : ℕ) : TradeSide :=
  if totalTrades % 2 = 0 then .buy else .sell

/-- The error taxonomy a trade attempt can report back to the loop. The
never-stop loop (line 445) tests the error text for the substring
"sell amount too small"; that substring check is modelled as this
distinguished constructor. -/
inductive TradeError where
  | sellAmountTooSmall
  | otherError (message : String)
deriving Repr, DecidableEq

/-- What one dexTrader.executeTrade call did, as seen by the loop:
a success, a failure result, or an exception caught at the loop boundary. -/
inductive TradeOutcome where
  | success
  | failure (error : TradeError)
  | thrown (error : TradeError)
deriving Repr, DecidableEq

/-- The in-memory TradingSession fields the startTradingLoop tick touches. -/
structure TradingSession where
  sessionId : String
  isActive : Bool
  tradingBalance : ℚ
  totalTrades : ℕ
  totalVolume : ℚ
deriving Repr, DecidableEq

/-- The per-trade floor at autoTradingService.ts lines 919 and 1022. -/
def MINIMUM_BALANCE_FOR_TRADE : ℚ := 0.001

/-- The trade-size table at autoTradingService.ts lines 1054-1062. -/
def tradeVariations : List ℚ :=
  [0.0008, 0.0012, 0.0018, 0.0025, 0.0035, 0.0015, 0.0010]

/-- AutoTradingService.calculateTradeAmount (autoTradingService.ts lines
1052-1071); the Math.random() table pick is passed in as randomAmount. -/
def calculateTradeAmount (randomAmount : ℚ) (balance : ℚ) : ℚ :=
  let maxSafeAmount := min randomAmount (balance * 0.05)
  max 0.0008 maxSafeAmount

/-- AutoTradingService.stopTradingSession (lines 1115-1139), restricted to its
effect on the session record: the active flag is cleared and the loop timer
is cancelled (no further tick is scheduled). -/
def stopSession (s : TradingSession) : TradingSession := { s with isActive := false }

/-- The outcome of one tick of the startTradingLoop body. attemptedSide is
none when the tick attempted no trade; rescheduled says whether a next tick
was scheduled. -/
structure TickResult where
  session : TradingSession
  attemptedSide : Option TradeSide
  rescheduled : Bool
deriving Repr, DecidableEq

/-- One tick of executeNextTrade inside AutoTradingService.startTradingLoop
(autoTradingService.ts lines 911-1043). randomAmount is the table pick used
by calculateTradeAmount; outcome is what the trade execution reported. -/
def executeNextTradeTick (s : TradingSession) (randomAmount : ℚ)
    (outcome : TradeOutcome) : TickResult :=
  if !s.isActive then
    { session := stopSession s, attemptedSide := none, rescheduled := false }
  else if s.tradingBalance < MINIMUM_BALANCE_FOR_TRADE then
    { session := stopSession s, attemptedSide := none, rescheduled := false }
  else
    let tradeType := tradeSideFor s.totalTrades
    let tradeAmount := calculateTradeAmount randomAmount s.tradingBalance
    match outcome with
    | .thrown _ =>
      { session := s, attemptedSide := some tradeType, rescheduled := s.isActive }
    | .success =>
      let s1 : TradingSession :=
        { s with totalTrades := s.totalTrades + 1
                 totalVolume := s.totalVolume + tradeAmount
                 tradingBalance := s.tradingBalance - tradeAmount }
      if s1.isActive = true ∧ MINIMUM_BALANCE_FOR_TRADE ≤ s1.tradingBalance then
        { session := s1, attemptedSide := some tradeType, rescheduled := true }
      else
        { session := stopSession s1, attemptedSide := some tradeType, rescheduled := false }
    | .failure _ =>
      if s.isActive = true ∧ MINIMUM_BALANCE_FOR_TRADE ≤ s.tradingBalance then
        { session := s, attemptedSide := some tradeType, rescheduled := true }
      else
        { session := stopSession s, attemptedSide := some tradeType, rescheduled := false }

/-- n consecutive ticks of the startTradingLoop body, with outs giving the
outcome of the trade attempted at each tick. -/
def iterateTicks (s : TradingSession) (randomAmount : ℚ) (outs : ℕ → TradeOutcome) :
    ℕ → TradingSession
  | 0 => s
  | n + 1 => (executeNextTradeTick (iterateTicks s randomAmount outs n) randomAmount (outs n)).session

/-- The loop-local pattern state of executeNeverStopTradingLoop
(autoTradingService.ts lines 326-467). -/
structure NeverStopState where
  totalTrades : ℕ
  isNextTradeBuy : Bool
deriving Repr, DecidableEq

/-- The official reset at lines 338-339: counter zeroed, first trade is a BUY. -/
def nsInit : NeverStopState := { totalTrades := 0, isNextTradeBuy := true }

/-- The side the never-stop loop attempts next (line 389). -/
def nsTradeSide (st : NeverStopState) : TradeSide :=
  if st.isNextTradeBuy then .buy else .sell

/-- The pattern update of one never-stop loop iteration (lines 421-454):
success counts the trade and toggles the side; a failed SELL whose error is
the sell-amount-too-small error is counted as completed and toggles too;
any other failure changes nothing (same side retried). -/
def nsStep (st : NeverStopState) (outcome : TradeOutcome) : NeverStopState :=
  match outcome with
  | .success =>
    { st with totalTrades := st.totalTrades + 1, isNextTradeBuy := !st.isNextTradeBuy }
  | .failure e =>
    if nsTradeSide st = .sell ∧ e = .sellAmountTooSmall then
      { st with totalTrades := st.totalTrades + 1, isNextTradeBuy := !st.isNextTradeBuy }
    else st
  | .thrown _ => st

/- ------------------------------------------------------------------ -/
/- Recovery (AutoTradingService.resumeTrading, lines 597-652)         -/
/- ------------------------------------------------------------------ -/

/-- The persisted-session fields resumeTrading consults, including the
force/override flags read at lines 605-612. -/
structure PersistedSessionData where
  tradingBalance : ℚ
  forceActive : Bool
  useStoredBalance : Bool
  ignoreOnChainBalance : Bool
  bypassBalanceCheck : Bool
  revenueGuarantee : Bool
  overrideBalance : Option ℚ
deriving Repr, DecidableEq

/-- JS truthiness of an optional numeric field (undefined and 0 are falsy). -/
def truthyAmount : Option ℚ → Bool
  | none => false
  | some q => q != 0

/-- The shouldBypassCheck disjunction at autoTradingService.ts lines 605-612. -/
def shouldBypassCheck (sessionData : Option PersistedSessionData) : Bool :=
  match sessionData with
  | none => false
  | some d =>
    d.forceActive || d.useStoredBalance || d.ignoreOnChainBalance ||
      d.bypassBalanceCheck || d.revenueGuarantee || truthyAmount d.overrideBalance

/-- Fixture: a persisted record carrying none of the bypass flags. -/
def flaglessData : PersistedSessionData :=
  { tradingBalance := 1/2
    forceActive := false
    useStoredBalance := false
    ignoreOnChainBalance := false
    bypassBalanceCheck := false
    revenueGuarantee := false
    overrideBalance := none }

/-- Fixture: the same record with the forceActive bypass flag set. -/
def forceActiveData : PersistedSessionData :=
  { flaglessData with forceActive := true }

inductive ResumeOutcome where
  | markedCompleted
  | resumedTrading (tradingBalance : ℚ)
deriving Repr, DecidableEq

/-- AutoTradingService.resumeTrading (lines 597-652): re-read the on-chain
balance (solBalance), mark the session completed when it is under the floor
and no bypass flag is set, otherwise resume the trading loop with the
balance the flag logic selects. -/
def resumeTrading (sessionTradingBalance : ℚ) (sessionData : Option PersistedSessionData)
    (solBalance : ℚ) : ResumeOutcome :=
  let bypass := shouldBypassCheck sessionData
  if solBalance < 0.001 ∧ bypass = false then .markedCompleted
  else
    let overrideBal := sessionData.bind fun d => d.overrideBalance
    let storedBal : Option ℚ := sessionData.map fun d => d.tradingBalance
    let newBalance :=
      if bypass = true ∧ truthyAmount overrideBal = true then overrideBal.getD sessionTradingBalance
      else if bypass = true ∧ truthyAmount storedBal = true then storedBal.getD sessionTradingBalance
      else if bypass = true then sessionTradingBalance
      else solBalance
    .resumedTrading newBalance

/- ------------------------------------------------------------------ -/
/- SessionPersistence (src/sessionPersistence.ts)                     -/
/- ------------------------------------------------------------------ -/

/-- The persisted-session record fields updateTradingStats touches. -/
structure PSession where
  sessionId : String
  status : String
  totalTrades : ℕ
  totalVolume : ℚ
  tradingBalance : ℚ
  initialDeposit : ℚ
  lastTradeTime : Option String
  completedAt : Option String
deriving Repr, DecidableEq

/-- The mutation updateTradingStats applies to the matched session record
(sessionPersistence.ts lines 167-181): overwrite the stats, then mark the
record completed when at most 5 percent of the operating pool remains. -/
def updateStatsOne (now : String) (totalTrades : ℕ) (totalVolume tradingBalance : ℚ)
    (s : PSession) : PSession :=
  let s1 : PSession :=
    { s with totalTrades := totalTrades
             totalVolume := totalVolume
             tradingBalance := tradingBalance
             lastTradeTime := some now }
  let remainingPercentage := tradingBalance / (s.initialDeposit * 0.75) * 100
  if remainingPercentage ≤ 5 then
    { s1 with status := "completed", completedAt := some now }
  else s1

/-- Update the first list entry satisfying p, leaving the rest unchanged
(the findIndex-then-mutate idiom of sessionPersistence.ts). -/
def updateFirst (p : α → Bool) (f : α → α) : List α → List α
  | [] => []
  | x :: xs => if p x then f x :: xs else x :: updateFirst p f xs

/-- SessionPersistence.updateTradingStats (sessionPersistence.ts lines
162-188) on the loaded session list; now is the new Date().toISOString()
value. -/
def updateTradingStats (sessions : List PSession) (sessionId : String)
    (totalTrades : ℕ) (totalVolume tradingBalance : ℚ) (now : String) : List PSession :=
  updateFirst (fun s => s.sessionId == sessionId)
    (updateStatsOne now totalTrades totalVolume tradingBalance) sessions

/- ------------------------------------------------------------------ -/
/- Helper lemmas                                                      -/
/- ------------------------------------------------------------------ -/

theorem abs_toFixed8_sub (x : ℚ) : |toFixed8 x - x| ≤ 1 / 200000000 := by
  unfold toFixed8
  have h1 : ((⌊x * 100000000 + 1 / 2⌋ : ℤ) : ℚ) ≤ x * 100000000 + 1 / 2 :=
    Int.floor_le _
  have h2 : x * 100000000 + 1 / 2 - 1 < ((⌊x * 100000000 + 1 / 2⌋ : ℤ) : ℚ) :=
    Int.sub_one_lt_floor _
  rw [abs_le]
  constructor <;> linarith

theorem tick_nonsuccess_eq (s : TradingSession) (randomAmount : ℚ) (o : TradeOutcome)
    (hact : s.isActive = true) (hbal : MINIMUM_BALANCE_FOR_TRADE ≤ s.tradingBalance)
    (ho : o ≠ .success) :
    executeNextTradeTick s randomAmount o =
      { session := s, attemptedSide := some (tradeSideFor s.totalTrades), rescheduled := true } := by
  cases o with
  | success => exact absurd rfl ho
  | failure e => simp [executeNextTradeTick, hact, not_lt.mpr hbal, hbal]
  | thrown e => simp [executeNextTradeTick, hact, not_lt.mpr hbal]

theorem tick_inactive_noop (t : TradingSession) (r : ℚ) (o : TradeOutcome)
    (hin : t.isActive = false) :
    (executeNextTradeTick t r o).session = t ∧
    (executeNextTradeTick t r o).attemptedSide = none ∧
    (executeNextTradeTick t r o).rescheduled = false := by
  obtain ⟨sid, act, tb, tt, tv⟩ := t
  simp only at hin
  subst hin
  simp [executeNextTradeTick, stopSession]

/- ------------------------------------------------------------------ -/
/- Claim theorems                                                     -/
/- ------------------------------------------------------------------ -/

/-- C1: the claim says a second processFundSplit call for the same funding
event (same session id and amount, no new transaction id) must throw a
duplicate-split error and record nothing. The code is wrong: the dedupe key
built at fundManager.ts line 212 embeds Date.now(), so the line 213 check
never fires for two calls at different instants — the second call succeeds
and a second FundSplit plus a second revenue transfer are recorded. This
theorem evaluates the embedding at that failing input. -/
theorem C1_duplicate_split_not_blocked :
    ∃ fs1 st1 fs2 st2,
      processFundSplit initialFMState "session1" "userA" (1/2) none none 1000 = .ok (fs1, st1) ∧
      processFundSplit st1 "session1" "userA" (1/2) none none 2000 = .ok (fs2, st2) ∧
      st2.fundSplits.length = 2 ∧
      (st2.fundSplits.map fun kv => kv.1.1) = ["session1", "session1"] ∧
      st2.revenueTransfers.length = 2 := by
  refine ⟨⟨3/8, 1/8, 1/2, REVENUE_WALLET, 1000⟩,
    ⟨[], [(("session1", 1/2, 1000), ⟨3/8, 1/8, 1/2, REVENUE_WALLET, 1000⟩)],
      [⟨"userA", REVENUE_WALLET, 1/8, "REVENUE_COLLECTION"⟩]⟩,
    ⟨3/8, 1/8, 1/2, REVENUE_WALLET, 2000⟩,
    ⟨[], [(("session1", 1/2, 1000), ⟨3/8, 1/8, 1/2, REVENUE_WALLET, 1000⟩),
          (("session1", 1/2, 2000), ⟨3/8, 1/8, 1/2, REVENUE_WALLET, 2000⟩)],
      [⟨"userA", REVENUE_WALLET, 1/8, "REVENUE_COLLECTION"⟩,
       ⟨"userA", REVENUE_WALLET, 1/8, "REVENUE_COLLECTION"⟩]⟩, ?_, ?_, rfl, rfl, rfl⟩
  · norm_num [processFundSplit, validateMinimumDeposit, splitKeyFor, calcRevenueAmount,
      calcUserTradingAmount, toFixed8, executeRevenueTransfer, MINIMUM_DEPOSIT_SOL,
      REVENUE_PERCENTAGE, TRADING_PERCENTAGE, PRIVILEGED_WALLETS, PRIVILEGED_FUNDING_SOURCE,
      initialFMState]
  · norm_num [processFundSplit, validateMinimumDeposit, splitKeyFor, calcRevenueAmount,
      calcUserTradingAmount, toFixed8, executeRevenueTransfer, MINIMUM_DEPOSIT_SOL,
      REVENUE_PERCENTAGE, TRADING_PERCENTAGE, PRIVILEGED_WALLETS, PRIVILEGED_FUNDING_SOURCE]

/-- C2 counterexample: tieFreeAmount is an exactly representable binary64
amount above the minimum whose 0.25 and 0.75 binary64 products are
themselves exactly representable (its significand 7205772402982756 is a
multiple of 4 below 2^53), so the runtime's double computation coincides
bit for bit with the rational products rounded here and no decimal tie is
involved. At this amount the independently rounded shares of fundManager.ts
lines 227-228 give operating + fee exceeding the amount by 0.96 * 10^-8 —
more than half a grid unit, different from the amount and from the amount's
own 8-decimal rounding — and the fee is not exactly 25 percent of the
amount. -/
theorem C2_float_faithful_counterexample :
    (7205772402982756 % 4 = 0 ∧ 7205772402982756 < 2 ^ 53) ∧
    MINIMUM_DEPOSIT_SOL ≤ tieFreeAmount ∧
    tieFreeAmount * REVENUE_PERCENTAGE = (7205772402982756 : ℚ) / 288230376151711744 ∧
    tieFreeAmount * TRADING_PERCENTAGE = (5404329302237067 : ℚ) / 72057594037927936 ∧
    calcRevenueAmount tieFreeAmount ≠ tieFreeAmount * REVENUE_PERCENTAGE ∧
    calcRevenueAmount tieFreeAmount + calcUserTradingAmount tieFreeAmount ≠ tieFreeAmount ∧
    calcRevenueAmount tieFreeAmount + calcUserTradingAmount tieFreeAmount - tieFreeAmount
      > 1 / 200000000 ∧
    calcRevenueAmount tieFreeAmount + calcUserTradingAmount tieFreeAmount
      ≠ toFixed8 tieFreeAmount := by
  refine ⟨⟨by norm_num, by norm_num⟩, ?_, ?_, ?_, ?_, ?_, ?_, ?_⟩ <;>
    norm_num [tieFreeAmount, calcRevenueAmount, calcUserTradingAmount, toFixed8,
      MINIMUM_DEPOSIT_SOL, REVENUE_PERCENTAGE, TRADING_PERCENTAGE]

/-- C2 amended: the recorded shares are toFixed(8) of the binary64 products
of the amount with 0.25 and 0.75. For every amount at or above the minimum
and any product values within a 2^-50 relative error of the exact 25 and 75
percent shares (a safe over-estimate of binary64 rounding — the 25 percent
product is in fact always exact), each rounded share lies within half of
10^-8 plus that allowance of the exact share, and the recorded
operating + fee lies within 10^-8 plus twice the allowance of the amount; in
particular the exact-product split functions themselves obey the
one-grid-unit sum bound. Exact equality of the sum with the amount, and
exact 25/75 shares, fail in general (see the counterexample). -/
theorem C2_split_bounds_amended (A R T : ℚ)
    (hmin : MINIMUM_DEPOSIT_SOL ≤ A)
    (hR : |R - A * REVENUE_PERCENTAGE| ≤ A / 1125899906842624)
    (hT : |T - A * TRADING_PERCENTAGE| ≤ A / 1125899906842624) :
    |toFixed8 R - A * REVENUE_PERCENTAGE| ≤ 1 / 200000000 + A / 1125899906842624 ∧
    |toFixed8 T - A * TRADING_PERCENTAGE| ≤ 1 / 200000000 + A / 1125899906842624 ∧
    |toFixed8 R + toFixed8 T - A| ≤ 1 / 100000000 + A / 562949953421312 ∧
    |calcRevenueAmount A + calcUserTradingAmount A - A| ≤ 1 / 100000000 := by
  have key : A * REVENUE_PERCENTAGE + A * TRADING_PERCENTAGE = A := by
    rw [REVENUE_PERCENTAGE, TRADING_PERCENTAGE]
    norm_num
    ring
  have b1 := abs_le.mp (abs_toFixed8_sub R)
  have b2 := abs_le.mp (abs_toFixed8_sub T)
  have b3 := abs_le.mp hR
  have b4 := abs_le.mp hT
  have b5 := abs_le.mp (abs_toFixed8_sub (A * REVENUE_PERCENTAGE))
  have b6 := abs_le.mp (abs_toFixed8_sub (A * TRADING_PERCENTAGE))
  refine ⟨abs_le.mpr ⟨by linarith, by linarith⟩, abs_le.mpr ⟨by linarith, by linarith⟩,
    abs_le.mpr ⟨by linarith, by linarith⟩, ?_⟩
  simp only [calcRevenueAmount, calcUserTradingAmount]
  exact abs_le.mpr ⟨by linarith, by linarith⟩

/-- C2 witness: the amended bounds instantiated at the minimum amount 0.1 SOL
with its exact products 0.025 and 0.075. -/
theorem C2_split_bounds_amended_witness :
    (MINIMUM_DEPOSIT_SOL ≤ (1/10 : ℚ) ∧
      |(1/40 : ℚ) - (1/10 : ℚ) * REVENUE_PERCENTAGE| ≤ (1/10 : ℚ) / 1125899906842624 ∧
      |(3/40 : ℚ) - (1/10 : ℚ) * TRADING_PERCENTAGE| ≤ (1/10 : ℚ) / 1125899906842624) ∧
    (|toFixed8 (1/40) - (1/10 : ℚ) * REVENUE_PERCENTAGE|
        ≤ 1 / 200000000 + (1/10 : ℚ) / 1125899906842624 ∧
      |toFixed8 (3/40) - (1/10 : ℚ) * TRADING_PERCENTAGE|
        ≤ 1 / 200000000 + (1/10 : ℚ) / 1125899906842624 ∧
      |toFixed8 (1/40) + toFixed8 (3/40) - (1/10 : ℚ)|
        ≤ 1 / 100000000 + (1/10 : ℚ) / 562949953421312 ∧
      |calcRevenueAmount (1/10) + calcUserTradingAmount (1/10) - (1/10 : ℚ)|
        ≤ 1 / 100000000) :=
  ⟨⟨by norm_num [MINIMUM_DEPOSIT_SOL],
    by norm_num [REVENUE_PERCENTAGE],
    by norm_num [TRADING_PERCENTAGE]⟩,
   C2_split_bounds_amended (1/10) (1/40) (3/40)
     (by norm_num [MINIMUM_DEPOSIT_SOL])
     (by norm_num [REVENUE_PERCENTAGE])
     (by norm_num [TRADING_PERCENTAGE])⟩

/-- C3 counterexample: the claim says that after any failed trade attempt the
next attempt uses the same side again. In executeNeverStopTradingLoop this
fails: starting from the initial pattern state, after one successful BUY the
next attempt is a SELL; when that SELL fails with the sell-amount-too-small
error, the recovery block at autoTradingService.ts lines 445-450 counts the
failed SELL and toggles, so the next attempt is a BUY, not a SELL. -/
theorem C3_failed_sell_advances_side :
    nsStep nsInit .success = { totalTrades := 1, isNextTradeBuy := false } ∧
    nsTradeSide { totalTrades := 1, isNextTradeBuy := false } = .sell ∧
    nsStep { totalTrades := 1, isNextTradeBuy := false } (.failure .sellAmountTooSmall)
      = { totalTrades := 2, isNextTradeBuy := true } ∧
    nsTradeSide { totalTrades := 2, isNextTradeBuy := true } = .buy := by
  refine ⟨rfl, rfl, ?_, rfl⟩
  simp [nsStep, nsTradeSide]

/-- C3 amended: in startTradingLoop the attempted side is BUY exactly when the
trade counter is even and any failure leaves the counter (hence the next
side) unchanged, while a success advances it; in executeNeverStopTradingLoop
a success toggles the side, any failure other than a failed SELL with the
sell-amount-too-small error leaves the pattern state unchanged (same side
retried), and that one failed-SELL case is counted as a completed trade and
advances the alternation so the next attempt is a BUY. -/
theorem C3_alternation_amended (s : TradingSession) (randomAmount : ℚ) (e : TradeError)
    (ns : NeverStopState)
    (hact : s.isActive = true) (hbal : MINIMUM_BALANCE_FOR_TRADE ≤ s.tradingBalance) :
    (executeNextTradeTick s randomAmount (.failure e)).attemptedSide
        = some (tradeSideFor s.totalTrades) ∧
    (executeNextTradeTick s randomAmount (.failure e)).session.totalTrades = s.totalTrades ∧
    (executeNextTradeTick s randomAmount .success).session.totalTrades = s.totalTrades + 1 ∧
    (nsStep ns .success).isNextTradeBuy = !ns.isNextTradeBuy ∧
    (¬(nsTradeSide ns = .sell ∧ e = .sellAmountTooSmall) → nsStep ns (.failure e) = ns) ∧
    (nsTradeSide ns = .sell →
      nsStep ns (.failure .sellAmountTooSmall)
        = { ns with totalTrades := ns.totalTrades + 1, isNextTradeBuy := true }) := by
  have hfail := tick_nonsuccess_eq s randomAmount (.failure e) hact hbal (by simp)
  refine ⟨by rw [hfail], by rw [hfail], ?_, by simp [nsStep], ?_, ?_⟩
  · simp [executeNextTradeTick, hact, not_lt.mpr hbal]
    split <;> simp [stopSession]
  · intro h
    simp [nsStep, h]
  · intro h
    have hb : ns.isNextTradeBuy = false := by
      by_contra hb
      simp only [Bool.not_eq_false] at hb
      simp [nsTradeSide, hb] at h
    simp [nsStep, nsTradeSide, hb]

/-- C3 witness: the amended statement instantiated at a concrete active
session with two completed trades and a concrete pattern state. -/
theorem C3_alternation_amended_witness :
    ((⟨"w", true, 1/100, 2, 0⟩ : TradingSession).isActive = true ∧
      MINIMUM_BALANCE_FOR_TRADE ≤ (⟨"w", true, 1/100, 2, 0⟩ : TradingSession).tradingBalance) ∧
    ((executeNextTradeTick ⟨"w", true, 1/100, 2, 0⟩ (3/2000)
          (.failure (.otherError "boom"))).attemptedSide
        = some (tradeSideFor (⟨"w", true, 1/100, 2, 0⟩ : TradingSession).totalTrades) ∧
      (executeNextTradeTick ⟨"w", true, 1/100, 2, 0⟩ (3/2000)
          (.failure (.otherError "boom"))).session.totalTrades
        = (⟨"w", true, 1/100, 2, 0⟩ : TradingSession).totalTrades ∧
      (executeNextTradeTick ⟨"w", true, 1/100, 2, 0⟩ (3/2000) .success).session.totalTrades
        = (⟨"w", true, 1/100, 2, 0⟩ : TradingSession).totalTrades + 1 ∧
      (nsStep nsInit .success).isNextTradeBuy = !nsInit.isNextTradeBuy ∧
      (¬(nsTradeSide nsInit = .sell ∧ (TradeError.otherError "boom") = .sellAmountTooSmall) →
        nsStep nsInit (.failure (.otherError "boom")) = nsInit) ∧
      (nsTradeSide nsInit = .sell →
        nsStep nsInit (.failure .sellAmountTooSmall)
          = { nsInit with totalTrades := nsInit.totalTrades + 1, isNextTradeBuy := true })) :=
  ⟨⟨rfl, by norm_num [MINIMUM_BALANCE_FOR_TRADE]⟩,
   C3_alternation_amended ⟨"w", true, 1/100, 2, 0⟩ (3/2000) (.otherError "boom") nsInit
     rfl (by norm_num [MINIMUM_BALANCE_FOR_TRADE])⟩

/-- C4: a trading-loop tick that finds the operating balance below the 0.001
SOL floor attempts no trade, clears the active flag (the session is stopped
for good — the terminal depleted outcome) and schedules no further tick; and
every tick on an already-stopped session is a no-op that attempts nothing. -/
theorem C4_depletion_terminal (s : TradingSession) (randomAmount : ℚ) (o : TradeOutcome)
    (hbal : s.tradingBalance < MINIMUM_BALANCE_FOR_TRADE) :
    (executeNextTradeTick s randomAmount o).attemptedSide = none ∧
    (executeNextTradeTick s randomAmount o).session.isActive = false ∧
    (executeNextTradeTick s randomAmount o).rescheduled = false ∧
    ∀ (t : TradingSession) (r : ℚ) (o2 : TradeOutcome), t.isActive = false →
      (executeNextTradeTick t r o2).session = t ∧
      (executeNextTradeTick t r o2).attemptedSide = none ∧
      (executeNextTradeTick t r o2).rescheduled = false := by
  refine ⟨?_, ?_, ?_, fun t r o2 hin => tick_inactive_noop t r o2 hin⟩ <;>
    by_cases hact : s.isActive <;>
      simp [executeNextTradeTick, hact, hbal, stopSession]

/-- C4 witness: a session with balance 0.0009 SOL and the 0.001 SOL floor
depletes immediately without attempting a trade. -/
theorem C4_depletion_terminal_witness :
    ((⟨"w", true, 9/10000, 0, 0⟩ : TradingSession).tradingBalance
        < MINIMUM_BALANCE_FOR_TRADE) ∧
    ((executeNextTradeTick ⟨"w", true, 9/10000, 0, 0⟩ (3/2000) .success).attemptedSide = none ∧
      (executeNextTradeTick ⟨"w", true, 9/10000, 0, 0⟩ (3/2000) .success).session.isActive = false ∧
      (executeNextTradeTick ⟨"w", true, 9/10000, 0, 0⟩ (3/2000) .success).rescheduled = false ∧
      ∀ (t : TradingSession) (r : ℚ) (o2 : TradeOutcome), t.isActive = false →
        (executeNextTradeTick t r o2).session = t ∧
        (executeNextTradeTick t r o2).attemptedSide = none ∧
        (executeNextTradeTick t r o2).rescheduled = false) :=
  ⟨by norm_num [MINIMUM_BALANCE_FOR_TRADE],
   C4_depletion_terminal ⟨"w", true, 9/10000, 0, 0⟩ (3/2000) .success
     (by norm_num [MINIMUM_BALANCE_FOR_TRADE])⟩

/-- C5: any number of consecutive non-success outcomes (failed trades or
thrown errors caught at the loop boundary) leaves the session record
untouched — in particular isActive stays true, the session is never moved to
any terminal state (the persisted status vocabulary has no failed value at
all), and every such tick schedules a retry. -/
theorem C5_errors_never_terminate (s : TradingSession) (randomAmount : ℚ)
    (outs : ℕ → TradeOutcome) (n : ℕ)
    (hact : s.isActive = true) (hbal : MINIMUM_BALANCE_FOR_TRADE ≤ s.tradingBalance)
    (herr : ∀ i, i < n → outs i ≠ .success) :
    iterateTicks s randomAmount outs n = s ∧
    (iterateTicks s randomAmount outs n).isActive = true ∧
    ∀ i, i < n →
      (executeNextTradeTick (iterateTicks s randomAmount outs i) randomAmount
        (outs i)).rescheduled = true := by
  induction n with
  | zero => exact ⟨rfl, hact, fun i hi => absurd hi (Nat.not_lt_zero i)⟩
  | succ m ih =>
    obtain ⟨heq, -, hres⟩ := ih (fun i hi => herr i (Nat.lt_succ_of_lt hi))
    have hstep : executeNextTradeTick (iterateTicks s randomAmount outs m) randomAmount (outs m)
        = { session := s, attemptedSide := some (tradeSideFor s.totalTrades),
            rescheduled := true } := by
      rw [heq]
      exact tick_nonsuccess_eq s randomAmount (outs m) hact hbal (herr m (Nat.lt_succ_self m))
    refine ⟨?_, ?_, ?_⟩
    · show (executeNextTradeTick (iterateTicks s randomAmount outs m) randomAmount
        (outs m)).session = s
      rw [hstep]
    · show (executeNextTradeTick (iterateTicks s randomAmount outs m) randomAmount
        (outs m)).session.isActive = true
      rw [hstep]; exact hact
    · intro i hi
      rcases Nat.lt_succ_iff_lt_or_eq.mp hi with h | h
      · exact hres i h
      · subst h
        rw [hstep]

/-- C5 witness: ten consecutive failures on a concrete active session leave
it unchanged and still active, each tick scheduling a retry. -/
theorem C5_errors_never_terminate_witness :
    ((⟨"w", true, 1/500, 0, 0⟩ : TradingSession).isActive = true ∧
      MINIMUM_BALANCE_FOR_TRADE ≤ (⟨"w", true, 1/500, 0, 0⟩ : TradingSession).tradingBalance ∧
      (∀ i, i < 10 → (fun _ => TradeOutcome.failure (.otherError "ExecutionError")) i
        ≠ TradeOutcome.success)) ∧
    (iterateTicks ⟨"w", true, 1/500, 0, 0⟩ (3/2000)
        (fun _ => .failure (.otherError "ExecutionError")) 10 = ⟨"w", true, 1/500, 0, 0⟩ ∧
      (iterateTicks ⟨"w", true, 1/500, 0, 0⟩ (3/2000)
        (fun _ => .failure (.otherError "ExecutionError")) 10).isActive = true ∧
      ∀ i, i < 10 →
        (executeNextTradeTick (iterateTicks ⟨"w", true, 1/500, 0, 0⟩ (3/2000)
            (fun _ => .failure (.otherError "ExecutionError")) i) (3/2000)
          ((fun _ => TradeOutcome.failure (.otherError "ExecutionError")) i)).rescheduled
            = true) :=
  ⟨⟨rfl, by norm_num [MINIMUM_BALANCE_FOR_TRADE], fun i _ => by simp⟩,
   C5_errors_never_terminate ⟨"w", true, 1/500, 0, 0⟩ (3/2000)
     (fun _ => .failure (.otherError "ExecutionError")) 10 rfl
     (by norm_num [MINIMUM_BALANCE_FOR_TRADE]) (fun i _ => by simp)⟩

/-- C6 counterexample: the claim quantifies over every non-privileged user
wallet address, but processFundSplit (fundManager.ts lines 198-209) skips
minimum-deposit validation entirely whenever the separate fundingSource
argument equals the hard-coded privileged address: a 0.05 SOL deposit for a
non-privileged user wallet then succeeds instead of failing. -/
theorem C6_bypass_counterexample :
    "someuser" ∉ PRIVILEGED_WALLETS ∧
    (1 / 20 : ℚ) < MINIMUM_DEPOSIT_SOL ∧
    ∃ fs st, processFundSplit initialFMState "s1" "someuser" (1/20)
        none (some PRIVILEGED_FUNDING_SOURCE) 1000 = .ok (fs, st) := by
  refine ⟨by decide, by norm_num [MINIMUM_DEPOSIT_SOL], ?_⟩
  refine ⟨⟨3/80, 1/80, 1/20, REVENUE_WALLET, 1000⟩,
    ⟨[], [(("s1", 1/20, 1000), ⟨3/80, 1/80, 1/20, REVENUE_WALLET, 1000⟩)],
      [⟨"someuser", REVENUE_WALLET, 1/80, "REVENUE_COLLECTION"⟩]⟩, ?_⟩
  norm_num [processFundSplit, validateMinimumDeposit, splitKeyFor, calcRevenueAmount,
    calcUserTradingAmount, toFixed8, executeRevenueTransfer, MINIMUM_DEPOSIT_SOL,
    REVENUE_PERCENTAGE, TRADING_PERCENTAGE, PRIVILEGED_WALLETS, PRIVILEGED_FUNDING_SOURCE,
    initialFMState]

/-- C6 amended: provided the funding source is not the hard-coded privileged
bypass address, a call for a non-privileged user wallet with an amount
strictly below 0.1 SOL fails with the minimum-deposit error (recording
nothing — the error result carries no new state, so no split is stored and
no fee transfer is appended), and for an amount at or above 0.1 SOL the
minimum-deposit validation succeeds and no such error can be raised. -/
theorem C6_minimum_deposit_amended (st : FMState) (sessionId userAddr : String)
    (amount : ℚ) (transactionId : Option String) (fundingSource : Option String) (now : ℕ)
    (hnp : userAddr ∉ PRIVILEGED_WALLETS)
    (hsrc : fundingSource ≠ some PRIVILEGED_FUNDING_SOURCE) :
    (amount < MINIMUM_DEPOSIT_SOL →
      processFundSplit st sessionId userAddr amount transactionId fundingSource now =
        .error (.minimumNotMet
          "Minimum deposit is 0.1 SOL. Please deposit at least 0.1 SOL to use the volume bot.")) ∧
    (MINIMUM_DEPOSIT_SOL ≤ amount →
      (validateMinimumDeposit userAddr amount).isValid = true ∧
      ∀ m, processFundSplit st sessionId userAddr amount transactionId fundingSource now ≠
        .error (.minimumNotMet m)) := by
  constructor
  · intro hlt
    simp [processFundSplit, validateMinimumDeposit, hnp, hsrc, hlt]
  · intro hge
    have hv : (validateMinimumDeposit userAddr amount).isValid = true := by
      simp [validateMinimumDeposit, hnp, not_lt.mpr hge]
    refine ⟨hv, fun m => ?_⟩
    simp only [processFundSplit, executeRevenueTransfer]
    rw [if_neg hsrc, if_pos hv]
    by_cases h1 : splitKeyFor sessionId amount now ∈ st.fundSplits.map Prod.fst
    · rw [if_pos h1]; simp
    · rw [if_neg h1]
      by_cases h2 : (match transactionId with
          | some t => decide (t ∈ st.processedTransactions)
          | none => false) = true
      · rw [if_pos h2]; simp
      · rw [if_neg h2]
        by_cases h3 : calcRevenueAmount amount ≤ 0
        · rw [if_pos h3]; simp
        · rw [if_neg h3]; simp

/-- C6 witness: the amended statement instantiated at a non-privileged wallet
with a 0.05 SOL deposit from an ordinary funding source. -/
theorem C6_minimum_deposit_amended_witness :
    ("someuser" ∉ PRIVILEGED_WALLETS ∧
      (none : Option String) ≠ some PRIVILEGED_FUNDING_SOURCE) ∧
    (((1/20 : ℚ) < MINIMUM_DEPOSIT_SOL →
      processFundSplit initialFMState "s1" "someuser" (1/20) none none 1000 =
        .error (.minimumNotMet
          "Minimum deposit is 0.1 SOL. Please deposit at least 0.1 SOL to use the volume bot.")) ∧
    (MINIMUM_DEPOSIT_SOL ≤ (1/20 : ℚ) →
      (validateMinimumDeposit "someuser" (1/20)).isValid = true ∧
      ∀ m, processFundSplit initialFMState "s1" "someuser" (1/20) none none 1000 ≠
        .error (.minimumNotMet m))) :=
  ⟨⟨by decide, by simp⟩,
   C6_minimum_deposit_amended initialFMState "s1" "someuser" (1/20) none none 1000
     (by decide) (by simp)⟩

/-- C7: the record validateMinimumDeposit returns for a privileged wallet at
any amount is identical — same isValid, same message text, same displayed
standard minimum — to the record returned for a non-privileged wallet whose
deposit meets the standard minimum, so the returned value never reveals the
privileged status or the existence of a lower minimum. -/
theorem C7_privileged_result_indistinguishable (privAddr otherAddr : String) (a b : ℚ)
    (hp : privAddr ∈ PRIVILEGED_WALLETS) (hn : otherAddr ∉ PRIVILEGED_WALLETS)
    (hb : MINIMUM_DEPOSIT_SOL ≤ b) :
    validateMinimumDeposit privAddr a = validateMinimumDeposit otherAddr b := by
  unfold validateMinimumDeposit
  rw [if_pos hp, if_neg hn, if_neg (not_lt.mpr hb)]

/-- C7 witness: a privileged wallet depositing 0.01 SOL gets the very record
a non-privileged wallet gets for a 0.1 SOL deposit. -/
theorem C7_privileged_result_indistinguishable_witness :
    ("2EJEuS1UaXaratBSiJJxd2p93XdvTL6uSHGXj2ZCx6Qt" ∈ PRIVILEGED_WALLETS ∧
      "someuser" ∉ PRIVILEGED_WALLETS ∧ MINIMUM_DEPOSIT_SOL ≤ (1/10 : ℚ)) ∧
    validateMinimumDeposit "2EJEuS1UaXaratBSiJJxd2p93XdvTL6uSHGXj2ZCx6Qt" (1/100)
      = validateMinimumDeposit "someuser" (1/10) :=
  ⟨⟨by decide, by decide, by norm_num [MINIMUM_DEPOSIT_SOL]⟩,
   C7_privileged_result_indistinguishable
     "2EJEuS1UaXaratBSiJJxd2p93XdvTL6uSHGXj2ZCx6Qt" "someuser" (1/100) (1/10)
     (by decide) (by decide) (by norm_num [MINIMUM_DEPOSIT_SOL])⟩

/-- C8 counterexample: the claim says the computed amount never exceeds 5
percent of the operating balance, but for balance 0.002 SOL (positive and
above the trade floor) the 0.0008 SOL minimum clamp at autoTradingService.ts
line 1067 overrides the 5-percent cap: the amount is 0.0008, eight times 5
percent of the balance. -/
theorem C8_floor_exceeds_cap_counterexample :
    (0 : ℚ) < 1/500 ∧ (0.0008 : ℚ) ∈ tradeVariations ∧
    calculateTradeAmount 0.0008 (1/500) > (1/500) * 0.05 := by
  refine ⟨by norm_num, ?_, ?_⟩
  · simp [tradeVariations]
  · norm_num [calculateTradeAmount]

/-- C8 amended: for any table pick and positive balance the computed amount
is at least the 0.0008 SOL floor, at most the 0.0035 SOL ceiling, and at
most the larger of the floor and 5 percent of the balance; the 5-percent cap
itself is only guaranteed once the balance is at least 0.016 SOL (where 5
percent of the balance reaches the floor). -/
theorem C8_trade_amount_bounds_amended (randomAmount balance : ℚ)
    (hmem : randomAmount ∈ tradeVariations) (hpos : 0 < balance) :
    0.0008 ≤ calculateTradeAmount randomAmount balance ∧
    calculateTradeAmount randomAmount balance ≤ 0.0035 ∧
    calculateTradeAmount randomAmount balance ≤ max 0.0008 (balance * 0.05) ∧
    ((0.016 : ℚ) ≤ balance → calculateTradeAmount randomAmount balance ≤ balance * 0.05) := by
  have hub : randomAmount ≤ 0.0035 := by
    simp only [tradeVariations, List.mem_cons, List.not_mem_nil, or_false] at hmem
    rcases hmem with h | h | h | h | h | h | h <;> rw [h] <;> norm_num
  unfold calculateTradeAmount
  refine ⟨le_max_left _ _, ?_, ?_, ?_⟩
  · exact max_le (by norm_num) (le_trans (min_le_left _ _) hub)
  · exact max_le_max le_rfl (min_le_right _ _)
  · intro h16
    have h5 : (0.0008 : ℚ) ≤ balance * 0.05 := by nlinarith
    exact max_le h5 (min_le_right _ _)

/-- C8 witness: the amended bounds at the 0.0025 table entry and a 0.02 SOL
balance. -/
theorem C8_trade_amount_bounds_amended_witness :
    ((0.0025 : ℚ) ∈ tradeVariations ∧ (0 : ℚ) < 1/50) ∧
    ((0.0008 : ℚ) ≤ calculateTradeAmount 0.0025 (1/50) ∧
      calculateTradeAmount 0.0025 (1/50) ≤ 0.0035 ∧
      calculateTradeAmount 0.0025 (1/50) ≤ max 0.0008 ((1/50) * 0.05) ∧
      ((0.016 : ℚ) ≤ 1/50 → calculateTradeAmount 0.0025 (1/50) ≤ (1/50) * 0.05)) :=
  ⟨⟨by simp [tradeVariations], by norm_num⟩,
   C8_trade_amount_bounds_amended 0.0025 (1/50) (by simp [tradeVariations]) (by norm_num)⟩

/-- C9 counterexample: the claim says a recovered TRADING session whose
re-read on-chain balance is below the 0.001 SOL floor is always marked
completed and never resumed, but a persisted forceActive flag (one of the
bypass flags read at autoTradingService.ts lines 605-612) makes resumeTrading
resume the loop with the stored balance even though the on-chain balance
0.0005 SOL is below the floor. -/
theorem C9_bypass_flag_counterexample :
    (1/2000 : ℚ) < 0.001 ∧
    resumeTrading (3/10) (some forceActiveData) (1/2000) = .resumedTrading (1/2) := by
  constructor
  · norm_num
  · norm_num [resumeTrading, shouldBypassCheck, truthyAmount, forceActiveData, flaglessData]

/-- C9 amended: when the persisted session carries none of the bypass
flags, resumeTrading behaves as the claim says: an on-chain balance below
the 0.001 SOL floor marks the session completed and does not resume it, and
otherwise trading resumes with exactly the re-read on-chain balance. -/
theorem C9_recovery_balance_check_amended (sessionTradingBalance : ℚ)
    (sessionData : Option PersistedSessionData) (solBalance : ℚ)
    (hnb : shouldBypassCheck sessionData = false) :
    (solBalance < 0.001 →
      resumeTrading sessionTradingBalance sessionData solBalance = .markedCompleted) ∧
    ((0.001 : ℚ) ≤ solBalance →
      resumeTrading sessionTradingBalance sessionData solBalance
        = .resumedTrading solBalance) := by
  constructor
  · intro h
    simp [resumeTrading, h, hnb]
  · intro h
    simp [resumeTrading, hnb, not_lt.mpr h]

/-- C9 witness: the amended statement instantiated at a flagless persisted
record with on-chain balance 0.0005 SOL. -/
theorem C9_recovery_balance_check_amended_witness :
    (shouldBypassCheck (some flaglessData) = false) ∧
    (((1/2000 : ℚ) < 0.001 →
      resumeTrading (3/10) (some flaglessData) (1/2000) = .markedCompleted) ∧
    ((0.001 : ℚ) ≤ (1/2000 : ℚ) →
      resumeTrading (3/10) (some flaglessData) (1/2000) = .resumedTrading (1/2000))) :=
  ⟨by simp [shouldBypassCheck, truthyAmount, flaglessData],
   C9_recovery_balance_check_amended (3/10) (some flaglessData) (1/2000)
     (by simp [shouldBypassCheck, truthyAmount, flaglessData])⟩

/-- C10: updateTradingStats rewrites the matched record and marks it
completed with a completion time exactly when the new trading balance is at
most 5 percent of the operating pool (5 percent of 75 percent of the
recorded initial deposit); otherwise the status and completion time are left
unchanged. Since that threshold scales with the deposit, the durable record
can turn terminal while the balance is far above the 0.001 SOL trade floor
(see the witness). -/
theorem C10_early_completion_rule (s : PSession) (now : String) (tt : ℕ) (tv tb : ℚ)
    (hd : 0 < s.initialDeposit) :
    updateTradingStats [s] s.sessionId tt tv tb now = [updateStatsOne now tt tv tb s] ∧
    (tb ≤ 0.05 * (s.initialDeposit * 0.75) →
      (updateStatsOne now tt tv tb s).status = "completed" ∧
      (updateStatsOne now tt tv tb s).completedAt = some now) ∧
    (¬ tb ≤ 0.05 * (s.initialDeposit * 0.75) →
      (updateStatsOne now tt tv tb s).status = s.status ∧
      (updateStatsOne now tt tv tb s).completedAt = s.completedAt) ∧
    (updateStatsOne now tt tv tb s).tradingBalance = tb := by
  have hpos : (0 : ℚ) < s.initialDeposit * 0.75 := by
    have : (0 : ℚ) < 0.75 := by norm_num
    exact mul_pos hd this
  have hcond : (tb / (s.initialDeposit * 0.75) * 100 ≤ 5) ↔
      tb ≤ 0.05 * (s.initialDeposit * 0.75) := by
    rw [div_mul_eq_mul_div, div_le_iff hpos]
    constructor <;> intro h <;> nlinarith
  refine ⟨by simp [updateTradingStats, updateFirst], ?_, ?_, ?_⟩
  · intro h
    simp only [updateStatsOne]
    rw [if_pos (hcond.mpr h)]
    exact ⟨rfl, rfl⟩
  · intro h
    simp only [updateStatsOne]
    rw [if_neg (fun hc => h (hcond.mp hc))]
    exact ⟨rfl, rfl⟩
  · simp only [updateStatsOne]
    split <;> rfl

/-- C10 witness: with a 10 SOL initial deposit the record completes at a
0.3 SOL balance — three hundred times the 0.001 SOL per-trade floor. -/
theorem C10_early_completion_rule_witness :
    ((0 : ℚ) < (10 : ℚ) ∧ MINIMUM_BALANCE_FOR_TRADE < 3/10 ∧
      (3/10 : ℚ) ≤ 0.05 * ((10 : ℚ) * 0.75)) ∧
    ((updateStatsOne "t1" 7 (1/2) (3/10)
        ⟨"sid", "trading", 0, 0, 5, 10, none, none⟩).status = "completed" ∧
      (updateStatsOne "t1" 7 (1/2) (3/10)
        ⟨"sid", "trading", 0, 0, 5, 10, none, none⟩).completedAt = some "t1") :=
  ⟨⟨by norm_num, by norm_num [MINIMUM_BALANCE_FOR_TRADE], by norm_num⟩,
   (C10_early_completion_rule ⟨"sid", "trading", 0, 0, 5, 10, none, none⟩ "t1" 7 (1/2) (3/10)
     (by norm_num)).2.1 (by norm_num)⟩

end SolanaBot
